import Mathlib

/-
Shallow embedding of the dynamic extension-loading subsystem of the
repository (source file: src/ui_script_loader.py). Python values that the
loader inspects are modelled by explicit inductive types; Python exceptions
are modelled with Except String (the error message); asynchronous steps are
collapsed at their await points, since the loader awaits every asynchronous
value immediately (maybe_await, lines 85-88). Logging is pure observability
and is not modelled, except that the two lifecycle calls that the claims
talk about (register_plugin, register_hooks) are recorded in an explicit
event trace emitted exactly where the source performs those calls.
Python string primitives are modelled over the character list of a Lean
String so that every definition evaluates inside the kernel.
-/

/-- Message of a raised Python exception. -/
abbrev PyErr := String

/-- Model of the Python str.lower method (ASCII data). -/
def pyLower (s : String) : String := String.mk (s.data.map Char.toLower)

/-- Model of the Python str.startswith method. -/
def pyStartsWith (s pre : String) : Bool := pre.data.isPrefixOf s.data

/-- Model of the Python str.endswith method. -/
def pyEndsWith (s suf : String) : Bool := suf.data.isSuffixOf s.data

/-- Model of the Python str.strip method with no argument. -/
def pyStrip (s : String) : String :=
  String.mk (((s.data.dropWhile Char.isWhitespace).reverse.dropWhile
    Char.isWhitespace).reverse)

/-- Characters after the first occurrence of sep, when sep occurs. -/
def afterFirst (sep : Char) : List Char → Option (List Char)
  | [] => none
  | c :: rest => if c = sep then some rest else afterFirst sep rest

/-- Model of a Python value in ui-artifact position, as classified by
resolve_plugin_ui (lines 91-113): a coroutine (awaiting it yields a value or
raises), a Gradio container instance (gr.Blocks / gr.Tabs), a synchronous
callable (calling it returns a value or raises), a coroutine function
(calling it and awaiting the call yields a value or raises), the value None,
or any other non-callable non-container value. -/
inductive UIVal where
  | coroOk (v : UIVal)
  | coroRaise (e : PyErr)
  | container (id : Nat)
  | syncOk (v : UIVal)
  | syncRaise (e : PyErr)
  | asyncOk (v : UIVal)
  | asyncRaise (e : PyErr)
  | pyNone
  | other (id : Nat)
deriving DecidableEq, Repr

/-- Embedding of resolve_plugin_ui (lines 91-113). A coroutine is awaited
and the awaited value is returned as is, with no further resolution (lines
92-93). A container instance is returned unchanged (lines 95-97). A callable
is invoked, with an await exactly when it is a coroutine function (lines
99-103), and the result of the invocation is returned whether or not it is a
container (lines 105-110); the result is not resolved further. Any other
value is returned unchanged with a warning (lines 112-113). An exception
raised by the await or by the invocation propagates to the caller. -/
def resolve_plugin_ui : UIVal → Except PyErr UIVal
  | UIVal.coroOk v => Except.ok v
  | UIVal.coroRaise e => Except.error e
  | UIVal.container i => Except.ok (UIVal.container i)
  | UIVal.syncOk v => Except.ok v
  | UIVal.syncRaise e => Except.error e
  | UIVal.asyncOk v => Except.ok v
  | UIVal.asyncRaise e => Except.error e
  | UIVal.pyNone => Except.ok UIVal.pyNone
  | UIVal.other i => Except.ok (UIVal.other i)

/-- Embedding of extract_metadata (lines 35-40): find the first line whose
lowercasing starts with the pattern hash-space-key-colon, split it at the
first colon and return the stripped remainder; return the empty string when
no line matches. A matching line always contains a colon (the pattern ends
with one), so the index-1 access of the source never fails; the impossible
no-colon case is mapped to the empty string. -/
def extract_metadata (lines : List String) (key : String) : String :=
  let key_lower := "# " ++ pyLower key ++ ":"
  match lines.find? (fun line => pyStartsWith (pyLower line) key_lower) with
  | some line =>
      match afterFirst ':' line.data with
      | some rest => pyStrip (String.mk rest)
      | none => ""
  | none => ""

/-- Embedding of EXCLUDED_FILES (lines 16-23). -/
def EXCLUDED_FILES : List String :=
  ["__init__.py", "canvas_ui.py", "ui_core_logic.py", "ui_script_loader.py",
   "context_manager.py", "tree_utils.py"]

/-- Embedding of is_plugin_file (lines 58-63). -/
def is_plugin_file (filename : String) : Bool :=
  pyEndsWith filename ".py"
    && !(EXCLUDED_FILES.contains filename)
    && !(pyStartsWith filename "__")

/-- Model of os.path.join for two components. -/
def pathJoin (a b : String) : String := a ++ "/" ++ b

/-- Model of os.path.basename: the last slash-separated component. -/
def basename (p : String) : String := String.mk ((p.data.splitOn '/').getLastD [])

/-- Model of a directory tree entry as seen by os.walk: a plain file, or a
subdirectory with its own readability flag and entries. An unreadable
directory is one whose scandir call raises (missing or permission denied). -/
inductive Entry where
  | file (name : String)
  | subdir (name : String) (readable : Bool) (entries : List Entry)
deriving Repr

/-- Names of the plain files of a directory listing, in listing order. -/
def listFilenames : List Entry → List String
  | [] => []
  | Entry.file n :: rest => n :: listFilenames rest
  | Entry.subdir _ _ _ :: rest => listFilenames rest

mutual
/-- Recursive walk of find_plugin_files (lines 65-74) over one directory:
os.walk yields this directory first, the loop body collects its plugin
files (lines 69-71), and the walk then descends, in listing order, into
exactly the subdirectories left by the in-place pruning of dirnames, which
drops every name starting with a dot (line 68). os.walk is invoked with its
default onerror=None, so a directory whose scandir call fails is silently
skipped and contributes nothing. -/
def walkCollect (path : String) (readable : Bool) (entries : List Entry) : List String :=
  if readable then
    ((listFilenames entries).filter is_plugin_file).map (fun f => pathJoin path f)
      ++ walkSubdirs path entries
  else []

/-- Descent part of walkCollect over the listing of one directory. -/
def walkSubdirs (path : String) : List Entry → List String
  | [] => []
  | Entry.file _ :: rest => walkSubdirs path rest
  | Entry.subdir n r es :: rest =>
      (if pyStartsWith n "." then [] else walkCollect (pathJoin path n) r es)
        ++ walkSubdirs path rest
end

/-- Embedding of find_plugin_files (lines 65-74) on a root directory given
by its path, readability and listing. When recursive is false the loop
breaks after the first os.walk triple (lines 72-73), so only the files
directly in the root are collected; an unreadable root makes os.walk
(default onerror=None) yield no triple at all, so either way the function
returns the empty list without raising. -/
def find_plugin_files (root : String) (rootReadable : Bool) (rootEntries : List Entry)
    (recursive : Bool) : List String :=
  if rootReadable then
    if recursive then
      walkCollect root rootReadable rootEntries
    else
      ((listFilenames rootEntries).filter is_plugin_file).map (fun f => pathJoin root f)
  else []

instance {ε α : Type} [DecidableEq ε] [DecidableEq α] : DecidableEq (Except ε α) := fun
  | Except.error a, Except.error b =>
      if h : a = b then isTrue (by rw [h]) else isFalse (by simp [h])
  | Except.error _, Except.ok _ => isFalse (by simp)
  | Except.ok _, Except.error _ => isFalse (by simp)
  | Except.ok a, Except.ok b =>
      if h : a = b then isTrue (by rw [h]) else isFalse (by simp [h])

/-- Model of one record of the persisted plugin cache, a JSON object per
path (lines 207-212): title, description, mtime and version. The mtime
field is read back with cache_entry.get, so a missing key is modelled by
none. A modelled entry is a nonempty JSON object, hence truthy at the
cache-condition test of line 181. -/
structure CacheEntry where
  title : String
  description : String
  mtime : Option Nat
  version : Option String
deriving DecidableEq, Repr

/-- Lookup in a Python dict modelled as a key-ordered association list. -/
def dictGet {α : Type} : List (String × α) → String → Option α
  | [], _ => none
  | (k1, v) :: rest, k => if k1 = k then some v else dictGet rest k

/-- Assignment d[k] = v on a Python dict modelled as an association list:
an existing key keeps its position and gets the new value, a new key is
appended at the end, as in the insertion-ordered dicts of Python. -/
def dictSet {α : Type} : List (String × α) → String → α → List (String × α)
  | [], k, v => [(k, v)]
  | (k1, v1) :: rest, k, v =>
      if k1 = k then (k, v) :: rest else (k1, v1) :: dictSet rest k v

/-- State of the persisted cache file read by load_cache: absent, present
but not parsable as JSON, or present with a well-formed mapping. -/
inductive CacheFileState where
  | missing
  | malformed
  | valid (entries : List (String × CacheEntry))
deriving Repr

/-- Embedding of load_cache (lines 42-49): a missing file falls through the
os.path.exists test and an unparsable file makes json.load raise inside the
try, which is caught with a warning; both cases return the empty mapping. -/
def load_cache : CacheFileState → List (String × CacheEntry)
  | CacheFileState.missing => []
  | CacheFileState.malformed => []
  | CacheFileState.valid entries => entries

/-- Embedding of save_cache (lines 51-56): the write either persists the
mapping or fails, and a failure is caught and logged, never raised. The
canWrite flag models whether the filesystem accepts the write; the result
is the persisted content, none when nothing was written. -/
def save_cache (canWrite : Bool) (cache : List (String × CacheEntry)) :
    Option (List (String × CacheEntry)) :=
  if canWrite then some cache else none

/-- Model of the value returned by a register_plugin call, as the loader
inspects it: whether it is a dict instance (line 146), whether it exposes a
get method as every dict does (line 187), the value stored under the key
named ui when that key is present, the optional run attribute together with
the outcome of calling it (lines 228-230), and its Python truthiness
(line 228). -/
structure PluginObj where
  isDict : Bool
  hasGet : Bool
  ui : Option UIVal
  run : Option (Except PyErr Nat)
  truthy : Bool
deriving DecidableEq, Repr

/-- Model of a loaded plugin module: the optional register_plugin attribute
together with the outcome of calling it (absent attribute, raising call, or
returned object), the optional register_hooks attribute likewise, and the
optional dunder version attribute. The dunder requires attribute is only
logged (lines 129-132) and is not modelled. -/
structure PyModule where
  register_plugin : Option (Except PyErr PluginObj)
  register_hooks : Option (Except PyErr Unit)
  version : Option String
deriving DecidableEq, Repr

/-- On-disk state of one candidate file during the cycle: its modification
time (os.path.getmtime, line 179), its text lines (lines 198-199), and the
result of load_plugin_module on it (lines 115-123), which is none when the
dynamic import raised, since that error is caught and converted to None. -/
structure FileData where
  mtime : Nat
  lines : List String
  loadResult : Option PyModule
deriving Repr

/-- Lifecycle calls recorded by the embedding, emitted exactly where the
source invokes the corresponding plugin capability. -/
inductive Event where
  | registerPluginCalled (path : String)
  | registerHooksCalled (path : String)
deriving DecidableEq, Repr

/-- Registry record built for one ready plugin (lines 155-162 on the fresh
path, lines 189-194 on the cached path). The mtime field models the extra
mtime key that the dict spread of the cache entry contributes on the cached
path; it is none for a descriptor built on the fresh path. -/
structure Descriptor where
  title : String
  description : String
  ui : UIVal
  version : Option String
  path : String
  plugin_obj : PluginObj
  mtime : Option Nat
deriving DecidableEq, Repr

/-- Title computation of line 200: the extracted title metadata, or the
basename of the path when the extraction yields the empty string, which is
falsy in Python. -/
def plugin_title (lines : List String) (path : String) : String :=
  let t := extract_metadata lines "title"
  if t = "" then basename path else t

/-- Validation and resolution tail of initialize_plugin (lines 146-162),
reached after the hook phase: reject unless the registered object is a dict
containing the key named ui (lines 146-148), resolve that value (line 150,
a raise is caught by the handler of lines 164-166 and yields None), and
build the descriptor, re-deriving the description from the file text
(line 157). -/
def initialize_plugin_tail (plugin_obj : PluginObj) (mod : PyModule)
    (path title : String) (lines : List String) (evs : List Event) :
    Option Descriptor × List Event :=
  match plugin_obj.isDict, plugin_obj.ui with
  | true, some uiv =>
      (match resolve_plugin_ui uiv with
       | Except.error _ => none
       | Except.ok plugin_ui =>
           some { title := title,
                  description := extract_metadata lines "description",
                  ui := plugin_ui,
                  version := mod.version,
                  path := path,
                  plugin_obj := plugin_obj,
                  mtime := none }, evs)
  | _, _ => (none, evs)

/-- Embedding of initialize_plugin (lines 125-166). Everything from the
register_plugin call onward runs inside one try whose handler returns None
(lines 164-166), so a raise in Phase 1, in the optional hook phase or in UI
resolution rejects the unit without propagating. A module without the
register_plugin attribute is rejected before anything is called (138-140).
The returned event list records which capabilities were invoked. -/
def initialize_plugin (mod : PyModule) (path title : String) (lines : List String) :
    Option Descriptor × List Event :=
  match mod.register_plugin with
  | none => (none, [])
  | some (Except.error _) => (none, [Event.registerPluginCalled path])
  | some (Except.ok plugin_obj) =>
      match mod.register_hooks with
      | some (Except.error _) =>
          (none, [Event.registerPluginCalled path, Event.registerHooksCalled path])
      | some (Except.ok _) =>
          initialize_plugin_tail plugin_obj mod path title lines
            [Event.registerPluginCalled path, Event.registerHooksCalled path]
      | none =>
          initialize_plugin_tail plugin_obj mod path title lines
            [Event.registerPluginCalled path]

/-- Mutable state of the loop of get_canvas_plugins: the cache mapping, the
plugins registry being built, and the trace of lifecycle calls so far. -/
structure LoopState where
  cache : List (String × CacheEntry)
  plugins : List (String × Descriptor)
  events : List Event
deriving Repr

/-- Cache condition of line 181: caching enabled, an entry present for the
path (a modelled entry is a nonempty dict, hence truthy), and the mtime
recorded in the entry equal to the current on-disk mtime. Returns the entry
on a hit. -/
def cache_hit (use_cache : Bool) (cache : List (String × CacheEntry))
    (path : String) (mtime : Nat) : Option CacheEntry :=
  if use_cache then
    match dictGet cache path with
    | some ce => if ce.mtime = some mtime then some ce else none
    | none => none
  else none

/-- Embedding of one iteration of the loop of get_canvas_plugins (lines
178-214) on the file at path. The cached branch (182-195) is not guarded by
any try, so a missing register_plugin attribute (AttributeError at the
attribute access of line 186), a raise inside the register_plugin call, a
missing get method on the returned object (line 187) or a raise inside UI
resolution all propagate out of the loop; only an import failure is
contained, inside load_plugin_module itself. The fresh branch (197-214)
runs inside a try, and every raising step of it is already caught inside
initialize_plugin, so it only ever skips the unit. -/
def processOne (use_cache : Bool) (data : String → FileData)
    (st : LoopState) (path : String) : Except PyErr LoopState :=
  let fd := data path
  let mtime := fd.mtime
  match cache_hit use_cache st.cache path mtime with
  | some ce =>
      match fd.loadResult with
      | none => Except.ok st
      | some mod =>
          match mod.register_plugin with
          | none => Except.error "AttributeError: module has no attribute register_plugin"
          | some (Except.error e) => Except.error e
          | some (Except.ok plugin_obj) =>
              if plugin_obj.hasGet then
                match resolve_plugin_ui (plugin_obj.ui.getD UIVal.pyNone) with
                | Except.error e => Except.error e
                | Except.ok plugin_ui =>
                    Except.ok { st with
                      events := st.events ++ [Event.registerPluginCalled path],
                      plugins := dictSet st.plugins ce.title
                        { title := ce.title,
                          description := ce.description,
                          ui := plugin_ui,
                          version := ce.version,
                          path := path,
                          plugin_obj := plugin_obj,
                          mtime := ce.mtime } }
              else Except.error "AttributeError: object has no attribute get"
  | none =>
      let lines := fd.lines
      let title := plugin_title lines path
      match fd.loadResult with
      | none => Except.ok st
      | some mod =>
          match initialize_plugin mod path title lines with
          | (none, evs2) => Except.ok { st with events := st.events ++ evs2 }
          | (some pdata, evs2) =>
              Except.ok
                { cache := dictSet st.cache path
                    { title := pdata.title,
                      description := pdata.description,
                      mtime := some mtime,
                      version := pdata.version },
                  plugins := dictSet st.plugins pdata.title pdata,
                  events := st.events ++ evs2 }

/-- Loop of get_canvas_plugins over the candidate files in scan order: an
exception escaping one iteration aborts the whole cycle, since no handler
encloses the loop. -/
def processFiles (use_cache : Bool) (data : String → FileData) :
    List String → LoopState → Except PyErr LoopState
  | [], st => Except.ok st
  | path :: rest, st =>
      match processOne use_cache data st path with
      | Except.error e => Except.error e
      | Except.ok st2 => processFiles use_cache data rest st2

/-- Value of one load cycle as handed to the host: the registry (also
attached to the context at line 219), the cache content persisted by
save_cache at line 217 (none when caching is off or the write failed), and
the trace of lifecycle calls. -/
structure CycleResult where
  plugins : List (String × Descriptor)
  savedCache : Option (List (String × CacheEntry))
  events : List Event
deriving Repr

/-- Path of the plugin root directory (CANVAS_DIR, line 13). -/
def CANVAS_DIR : String := "canvas"

/-- Embedding of get_canvas_plugins (lines 168-220): scan CANVAS_DIR,
read the cache when caching is enabled, process every candidate in scan
order, persist the cache when caching is enabled, and return the registry.
The data function gives the on-disk state of every path for this cycle. -/
def get_canvas_plugins (rootReadable : Bool) (rootEntries : List Entry)
    (data : String → FileData) (recursive use_cache : Bool)
    (cacheFile : CacheFileState) (canWrite : Bool) : Except PyErr CycleResult :=
  let plugin_files := find_plugin_files CANVAS_DIR rootReadable rootEntries recursive
  let cache := if use_cache then load_cache cacheFile else []
  match processFiles use_cache data plugin_files
      { cache := cache, plugins := [], events := [] } with
  | Except.error e => Except.error e
  | Except.ok st =>
      Except.ok
        { plugins := st.plugins,
          savedCache := if use_cache then save_cache canWrite st.cache else none,
          events := st.events }

/-- Outcome recorded by load_scripts for one executed plugin runner: the
tuple of title, status string and result or error message (lines 231, 234). -/
inductive RunOutcome where
  | success (title : String) (result : Nat)
  | error (title : String) (msg : String)
deriving DecidableEq, Repr

/-- Per-descriptor body of the loop of load_scripts (lines 227-235): the
runner is invoked only when the registered object is truthy and has a run
attribute (line 228); a normal return is recorded as a success outcome and
a raise is caught and recorded as an error outcome, never propagated. -/
def run_outcome (title : String) (plugin_obj : PluginObj) : List RunOutcome :=
  if plugin_obj.truthy then
    match plugin_obj.run with
    | some (Except.ok r) => [RunOutcome.success title r]
    | some (Except.error e) => [RunOutcome.error title e]
    | none => []
  else []

/-- Embedding of load_scripts (lines 222-237) over the registry attached to
the context: every descriptor is visited in registry order and contributes
its recorded outcomes regardless of the outcome of earlier descriptors. -/
def load_scripts : List (String × Descriptor) → List RunOutcome
  | [] => []
  | (title, plugin) :: rest => run_outcome title plugin.plugin_obj ++ load_scripts rest

/-- Registry descriptor whose registered object is falsy (an empty
dict-subclass instance, for example) yet exposes a succeeding run
capability. -/
def falsyRunDescriptor : Descriptor :=
  { title := "t", description := "", ui := UIVal.pyNone, version := none,
    path := "canvas/t.py",
    plugin_obj := { isDict := true, hasGet := true, ui := none,
                    run := some (Except.ok 5), truthy := false },
    mtime := none }

/-- Registry descriptor whose registered object raises from run. -/
def raisingRunDescriptor : Descriptor :=
  { title := "u", description := "", ui := UIVal.pyNone, version := none,
    path := "canvas/u.py",
    plugin_obj := { isDict := true, hasGet := true, ui := none,
                    run := some (Except.error "runboom"), truthy := true },
    mtime := none }

/-- Registry descriptor whose registered object runs successfully. -/
def succeedingRunDescriptor : Descriptor :=
  { title := "v", description := "", ui := UIVal.pyNone, version := none,
    path := "canvas/v.py",
    plugin_obj := { isDict := true, hasGet := true, ui := none,
                    run := some (Except.ok 9), truthy := true },
    mtime := none }

/-- Trivial on-disk state used by concrete witnesses. -/
def emptyFileData : String → FileData :=
  fun _ => { mtime := 0, lines := [], loadResult := none }

/-- Module of a concrete unit without a title metadata line. -/
def modTitleless : PyModule :=
  { register_plugin := some (Except.ok
      { isDict := true, hasGet := true, ui := some (UIVal.container 1),
        run := none, truthy := true }),
    register_hooks := none, version := none }

/-- On-disk state of a concrete unit without a title metadata line. -/
def dataTitleless : String → FileData :=
  fun _ => { mtime := 3, lines := ["print(1)"], loadResult := some modTitleless }

/-- Descriptor the loader builds for the concrete titleless unit. -/
def descTitleless : Descriptor :=
  { title := "b.py", description := "", ui := UIVal.container 1, version := none,
    path := "canvas/b.py",
    plugin_obj := { isDict := true, hasGet := true, ui := some (UIVal.container 1),
                    run := none, truthy := true },
    mtime := none }

/-- Cache entry matching the concrete raising unit below. -/
def ceA : CacheEntry :=
  { title := "A", description := "", mtime := some 5, version := none }

/-- Module whose register_plugin call raises. -/
def modRegRaise : PyModule :=
  { register_plugin := some (Except.error "boom"),
    register_hooks := none, version := none }

/-- On-disk state of the concrete raising unit. -/
def dataRegRaise : String → FileData :=
  fun _ => { mtime := 5, lines := ["# title: A"], loadResult := some modRegRaise }

/-- Object returned by the fresh registration call of the cached-path
witness unit. -/
def poFresh : PluginObj :=
  { isDict := true, hasGet := true, ui := some (UIVal.container 7),
    run := none, truthy := true }

/-- Module of the cached-path witness unit. -/
def modFresh : PyModule :=
  { register_plugin := some (Except.ok poFresh),
    register_hooks := none, version := some "2.0" }

/-- On-disk state of the cached-path witness unit: its title line now says
New, while the cache still says A. -/
def dataFresh : String → FileData :=
  fun _ => { mtime := 5, lines := ["# title: New"], loadResult := some modFresh }

/-- Cache entry of the cached-path witness unit, with matching mtime. -/
def ceCached : CacheEntry :=
  { title := "A", description := "cached desc", mtime := some 5, version := some "0.9" }

/-- Module without the required register_plugin capability. -/
def modNoRegister : PyModule :=
  { register_plugin := none, register_hooks := none, version := none }

/-- On-disk state of a unit without the register_plugin capability. -/
def dataNoRegister : String → FileData :=
  fun _ => { mtime := 5, lines := ["# title: A"], loadResult := some modNoRegister }

/-- Registered object of the concrete cache-hit unit below: not a dict, no
ui key, but it does expose get. -/
def poNonDict : PluginObj :=
  { isDict := false, hasGet := true, ui := none, run := none, truthy := false }

/-- Module of the concrete cache-hit unit below: its register_hooks raises
whenever invoked, so any invocation would abort the cached branch. -/
def modHooky : PyModule :=
  { register_plugin := some (Except.ok poNonDict),
    register_hooks := some (Except.error "hookboom"), version := none }

/-- On-disk state of the concrete cache-hit unit below. -/
def dataHooky : String → FileData :=
  fun _ => { mtime := 5, lines := ["# title: A"], loadResult := some modHooky }

/-- Number of entries of an association list carrying the given key. -/
def countKey {α : Type} (m : List (String × α)) (k : String) : Nat :=
  m.countP (fun p => p.1 = k)

/-- Registered object of the first duplicate-title unit. -/
def poDupA : PluginObj :=
  { isDict := true, hasGet := true, ui := some (UIVal.container 1),
    run := none, truthy := true }

/-- Registered object of the second duplicate-title unit. -/
def poDupB : PluginObj :=
  { isDict := true, hasGet := true, ui := some (UIVal.container 2),
    run := none, truthy := true }

/-- Module of the first duplicate-title unit. -/
def modDupA : PyModule :=
  { register_plugin := some (Except.ok poDupA), register_hooks := none,
    version := none }

/-- Module of the second duplicate-title unit. -/
def modDupB : PyModule :=
  { register_plugin := some (Except.ok poDupB), register_hooks := none,
    version := none }

/-- On-disk state of two units that declare the same title T. -/
def dataDup : String → FileData :=
  fun path =>
    if path = "canvas/b.py" then
      { mtime := 2, lines := ["# title: T", "# description: from b"],
        loadResult := some modDupB }
    else
      { mtime := 1, lines := ["# title: T", "# description: from a"],
        loadResult := some modDupA }

/-- Descriptor of the first duplicate-title unit. -/
def descDupA : Descriptor :=
  { title := "T", description := "from a", ui := UIVal.container 1,
    version := none, path := "canvas/a.py", plugin_obj := poDupA, mtime := none }

/-- Descriptor of the second duplicate-title unit. -/
def descDupB : Descriptor :=
  { title := "T", description := "from b", ui := UIVal.container 2,
    version := none, path := "canvas/b.py", plugin_obj := poDupB, mtime := none }

/-- Loop state after the first duplicate-title unit was processed. -/
def stAfterA : LoopState :=
  { cache := [("canvas/a.py",
      { title := "T", description := "from a", mtime := some 1, version := none })],
    plugins := [("T", descDupA)],
    events := [Event.registerPluginCalled "canvas/a.py"] }

/-- Helper: a root listing holding one plugin file scans to exactly that
path, for either value of the recursive flag. -/
lemma find_plugin_files_single_file (fname : String) (rec : Bool)
    (h : is_plugin_file fname = true) :
    find_plugin_files CANVAS_DIR true [Entry.file fname] rec
      = [pathJoin CANVAS_DIR fname] := by
  cases rec <;>
    simp [find_plugin_files, walkCollect, walkSubdirs, listFilenames, h]

/-- C2, counterexample. The claim reads resolution as recursive: any
zero-argument invocable returning a deferred computation that resolves to
the concrete value V should resolve to V. A synchronous invocable whose
invocation returns a coroutine that resolves to the container V is such a
value, yet resolve_plugin_ui returns the coroutine itself, unawaited,
because the result of an invocation is returned without further
resolution (lines 103-110). -/
theorem C2_counterexample_sync_invocable_not_recursed :
    resolve_plugin_ui (UIVal.syncOk (UIVal.coroOk (UIVal.container 0)))
      ≠ Except.ok (UIVal.container 0) := by decide

/-- C2, amended: UI resolution is not recursive. An asynchronous invocable
(coroutine function) whose awaited invocation yields V resolves to V, and
this is the only sense in which a deferred invocation result is awaited; a
synchronous invocable returning a deferred computation resolves to the
deferred computation itself, and more generally the result of an invocation
is returned without being resolved again. -/
theorem C2_resolve_invocable_single_step (v : UIVal) :
    resolve_plugin_ui (UIVal.asyncOk v) = Except.ok v ∧
    resolve_plugin_ui (UIVal.syncOk v) = Except.ok v ∧
    resolve_plugin_ui (UIVal.syncOk (UIVal.coroOk v))
      = Except.ok (UIVal.coroOk v) :=
  ⟨rfl, rfl, rfl⟩

/-- C5, counterexample. The claim says a root directory that cannot be read
is a fatal condition reported to the caller of the scan. In the source,
os.walk runs with its default onerror=None, so scanning an unreadable root
that does contain a plugin file silently returns the empty sequence, the
same value an empty readable root yields. -/
theorem C5_counterexample_unreadable_root_silent :
    find_plugin_files CANVAS_DIR false [Entry.file "a.py"] true = [] ∧
    find_plugin_files CANVAS_DIR true [] true = [] := by
  constructor
  · rfl
  · simp [find_plugin_files, walkCollect, walkSubdirs, listFilenames]

/-- C5, amended: scanning an empty readable root returns an empty sequence
without failing, and a root that cannot be read at all also silently yields
an empty sequence, whatever it contains; the failure is swallowed by
os.walk, not reported to the caller. -/
theorem C5_scan_empty_and_unreadable (entries : List Entry) (rec : Bool) :
    find_plugin_files CANVAS_DIR true [] rec = [] ∧
    find_plugin_files CANVAS_DIR false entries rec = [] := by
  constructor
  · cases rec <;> simp [find_plugin_files, walkCollect, walkSubdirs, listFilenames]
  · simp [find_plugin_files]

/-- Helper: load_scripts distributes over list append. -/
lemma load_scripts_append (l1 l2 : List (String × Descriptor)) :
    load_scripts (l1 ++ l2) = load_scripts l1 ++ load_scripts l2 := by
  induction l1 with
  | nil => simp [load_scripts]
  | cons p rest ih => cases p; simp [load_scripts, ih]

/-- C6, counterexample. The claim promises exactly one outcome per
descriptor whose raw registration object exposes a run capability. The
loop of load_scripts however guards the call with the Python truthiness of
the object (line 228), so a falsy registered object that does expose run
produces no outcome at all. -/
theorem C6_counterexample_falsy_object_skipped :
    load_scripts [("t", falsyRunDescriptor)] = [] ∧
    falsyRunDescriptor.plugin_obj.run = some (Except.ok 5) := ⟨rfl, rfl⟩

/-- C6, amended: the script runner produces exactly one outcome per
descriptor whose raw registration object is truthy and exposes a run
capability: a success outcome with the result of run, or an error outcome
with the message when run raises; each descriptor contributes its outcomes
independently of every other descriptor, so a raise in one run never
prevents the remaining descriptors from being invoked and recorded. -/
theorem C6_one_outcome_per_truthy_run (pre post : List (String × Descriptor))
    (t : String) (d : Descriptor) :
    load_scripts (pre ++ (t, d) :: post)
      = load_scripts pre ++ run_outcome t d.plugin_obj ++ load_scripts post ∧
    (d.plugin_obj.truthy = true → ∀ r, d.plugin_obj.run = some (Except.ok r) →
      run_outcome t d.plugin_obj = [RunOutcome.success t r]) ∧
    (d.plugin_obj.truthy = true → ∀ e, d.plugin_obj.run = some (Except.error e) →
      run_outcome t d.plugin_obj = [RunOutcome.error t e]) := by
  refine ⟨?_, ?_, ?_⟩
  · rw [load_scripts_append]
    simp [load_scripts]
  · intro ht r hr
    simp [run_outcome, ht, hr]
  · intro ht e he
    simp [run_outcome, ht, he]

/-- C6, witness: in a registry where the first runner raises, the second
descriptor is still invoked and recorded, and each contributes exactly one
outcome. -/
theorem C6_witness :
    load_scripts [("u", raisingRunDescriptor), ("v", succeedingRunDescriptor)]
      = [RunOutcome.error "u" "runboom", RunOutcome.success "v" 9] := by
  have h := C6_one_outcome_per_truthy_run [("u", raisingRunDescriptor)] []
    "v" succeedingRunDescriptor
  have h2 := h.2.1 rfl 9 rfl
  have h1 := h.1
  simp only [List.append_nil] at h1
  rw [show [("u", raisingRunDescriptor), ("v", succeedingRunDescriptor)]
      = [("u", raisingRunDescriptor)] ++ ("v", succeedingRunDescriptor) :: [] from rfl, h1, h2]
  rfl

/-- C7: loading the persisted cache never fails fatally. A missing cache
file and an unparsable cache file both load as the empty mapping, a cycle
run against a malformed cache file behaves exactly like one run against an
empty cache (every unit fully re-initializes), the registry a cycle returns
does not depend on whether the cache write at the end succeeds, and a cycle
that completes with caching enabled and a writable cache file does persist
a cache mapping. -/
theorem C7_cache_corruption_tolerated (rootReadable : Bool) (entries : List Entry)
    (data : String → FileData) (rec uc cw : Bool) (cf : CacheFileState) :
    load_cache CacheFileState.missing = [] ∧
    load_cache CacheFileState.malformed = [] ∧
    get_canvas_plugins rootReadable entries data rec true CacheFileState.malformed cw
      = get_canvas_plugins rootReadable entries data rec true (CacheFileState.valid []) cw ∧
    (get_canvas_plugins rootReadable entries data rec uc cf true).map CycleResult.plugins
      = (get_canvas_plugins rootReadable entries data rec uc cf false).map CycleResult.plugins ∧
    (∀ r, get_canvas_plugins rootReadable entries data rec true cf true = Except.ok r →
      r.savedCache.isSome = true) := by
  refine ⟨rfl, rfl, rfl, ?_, ?_⟩
  · simp only [get_canvas_plugins]
    split <;> rfl
  · intro r h
    simp only [get_canvas_plugins] at h
    split at h
    · exact absurd h (by simp)
    · cases h
      simp [save_cache]

/-- C7, witness: the theorem applied to a concrete empty cycle run against
a missing cache file, discharging the success hypothesis of its last
conjunct. -/
theorem C7_witness :
    load_cache CacheFileState.missing = [] ∧
    (CycleResult.mk [] (some []) []).savedCache.isSome = true :=
  ⟨(C7_cache_corruption_tolerated true [] emptyFileData false true true
      CacheFileState.missing).1,
   (C7_cache_corruption_tolerated true [] emptyFileData false true true
      CacheFileState.missing).2.2.2.2 (CycleResult.mk [] (some []) []) rfl⟩

/-- Helper: when no line matches the metadata pattern for key, extraction
returns the empty string. -/
lemma extract_metadata_no_match (lines : List String) (key : String)
    (h : ∀ line ∈ lines,
      pyStartsWith (pyLower line) ("# " ++ pyLower key ++ ":") = false) :
    extract_metadata lines key = "" := by
  unfold extract_metadata
  have hf : lines.find?
      (fun line => pyStartsWith (pyLower line) ("# " ++ pyLower key ++ ":")) = none := by
    rw [List.find?_eq_none]
    intro x hx
    simp [h x hx]
  simp [hf]

/-- Helper: a descriptor built by initialize_plugin_tail carries the title
it was given. -/
lemma initialize_plugin_tail_title (po : PluginObj) (mod : PyModule)
    (path title : String) (lines : List String) (evs0 : List Event)
    (d : Descriptor) (evs : List Event)
    (h : initialize_plugin_tail po mod path title lines evs0 = (some d, evs)) :
    d.title = title := by
  unfold initialize_plugin_tail at h
  split at h
  · split at h
    · exact absurd h (by simp)
    · rw [Prod.mk.injEq] at h
      obtain ⟨h1, -⟩ := h
      cases h1
      rfl
  · exact absurd h (by simp)

/-- Helper: a descriptor built by initialize_plugin carries the title it
was given. -/
lemma initialize_plugin_title (mod : PyModule) (path title : String)
    (lines : List String) (d : Descriptor) (evs : List Event)
    (h : initialize_plugin mod path title lines = (some d, evs)) :
    d.title = title := by
  unfold initialize_plugin at h
  split at h
  · exact absurd h (by simp)
  · exact absurd h (by simp)
  · split at h
    · exact absurd h (by simp)
    · exact initialize_plugin_tail_title _ _ _ _ _ _ _ _ h
    · exact initialize_plugin_tail_title _ _ _ _ _ _ _ _ h

/-- C9: for a unit whose source text has no title metadata line, the title
extraction yields the empty string, which is falsy, so line 200 falls back
to the basename of the file: the registry key and the descriptor title of
such a unit are the basename, not the empty string. Stated on a cycle over
one candidate file, with caching disabled so the unit takes the fresh path,
and for a unit whose initialization succeeds. -/
theorem C9_title_defaults_to_basename (fname : String) (data : String → FileData)
    (rec cw : Bool) (cf : CacheFileState) (mod : PyModule) (d : Descriptor)
    (evs2 : List Event)
    (hfile : is_plugin_file fname = true)
    (hno : ∀ line ∈ (data (pathJoin CANVAS_DIR fname)).lines,
      pyStartsWith (pyLower line) "# title:" = false)
    (hmod : (data (pathJoin CANVAS_DIR fname)).loadResult = some mod)
    (hinit : initialize_plugin mod (pathJoin CANVAS_DIR fname)
      (basename (pathJoin CANVAS_DIR fname))
      (data (pathJoin CANVAS_DIR fname)).lines = (some d, evs2)) :
    extract_metadata (data (pathJoin CANVAS_DIR fname)).lines "title" = "" ∧
    ∃ r, get_canvas_plugins true [Entry.file fname] data rec false cf cw
        = Except.ok r ∧
      r.plugins = [(basename (pathJoin CANVAS_DIR fname), d)] := by
  have hext : extract_metadata (data (pathJoin CANVAS_DIR fname)).lines "title" = "" := by
    apply extract_metadata_no_match
    intro line hl
    exact hno line hl
  have hpt : plugin_title (data (pathJoin CANVAS_DIR fname)).lines
      (pathJoin CANVAS_DIR fname) = basename (pathJoin CANVAS_DIR fname) := by
    simp [plugin_title, hext]
  have htd : d.title = basename (pathJoin CANVAS_DIR fname) :=
    initialize_plugin_title _ _ _ _ _ _ hinit
  refine ⟨hext, ?_⟩
  unfold get_canvas_plugins
  rw [find_plugin_files_single_file fname rec hfile]
  simp only [processFiles, processOne, cache_hit, if_false, Bool.false_eq_true]
  rw [hpt, hmod]
  simp [hinit, dictSet, htd]

/-- C9, witness: the theorem applied to a concrete unit whose only source
line is not a metadata line; its registry key is the basename b.py. -/
theorem C9_witness :
    extract_metadata (dataTitleless "canvas/b.py").lines "title" = "" ∧
    ∃ r, get_canvas_plugins true [Entry.file "b.py"] dataTitleless false false
        CacheFileState.missing true = Except.ok r ∧
      r.plugins = [("b.py", descTitleless)] :=
  C9_title_defaults_to_basename "b.py" dataTitleless false true
    CacheFileState.missing modTitleless descTitleless
    [Event.registerPluginCalled "canvas/b.py"]
    (by decide) (by decide) rfl rfl

/-- Helper: with caching disabled one loop iteration never raises, since
the fresh branch catches every per-unit failure. -/
lemma processOne_no_cache_ok (data : String → FileData) (st : LoopState) (path : String) :
    ∃ st2, processOne false data st path = Except.ok st2 := by
  simp only [processOne, cache_hit, Bool.false_eq_true, if_false]
  split
  · exact ⟨_, rfl⟩
  · split <;> exact ⟨_, rfl⟩

/-- Helper: with caching disabled the whole loop never raises. -/
lemma processFiles_no_cache_ok (data : String → FileData) (files : List String)
    (st : LoopState) :
    ∃ st2, processFiles false data files st = Except.ok st2 := by
  induction files generalizing st with
  | nil => exact ⟨st, rfl⟩
  | cons p rest ih =>
      obtain ⟨st1, h1⟩ := processOne_no_cache_ok data st p
      obtain ⟨st2, h2⟩ := ih st1
      exact ⟨st2, by simp [processFiles, h1, h2]⟩

/-- C1, counterexample. The claim says no exception from a single unit
lifecycle escapes get_canvas_plugins, in particular on the cached path. On
a cache hit (entry present, recorded mtime equal to the on-disk mtime) the
branch of lines 182-195 runs outside any try, so an exception raised by the
register_plugin call of line 186 escapes the orchestrator and aborts the
whole cycle. -/
theorem C1_counterexample_cached_register_raises :
    get_canvas_plugins true [Entry.file "a.py"] dataRegRaise false true
      (CacheFileState.valid [("canvas/a.py", ceA)]) true
      = Except.error "boom" := rfl

/-- C1, amended: with caching disabled every unit takes the fully guarded
fresh path and no exception from any unit lifecycle escapes
get_canvas_plugins, which always returns a registry; with caching enabled,
however, a unit taken through the cached path whose Phase-1 registration
raises makes that exception escape the orchestrator loop. -/
theorem C1_containment_only_on_fresh_path
    (rootReadable : Bool) (entries : List Entry) (data : String → FileData)
    (rec cw : Bool) (cf : CacheFileState)
    (st : LoopState) (path : String) (ce : CacheEntry) (mod : PyModule) (e : PyErr) :
    (∃ r, get_canvas_plugins rootReadable entries data rec false cf cw = Except.ok r) ∧
    (cache_hit true st.cache path (data path).mtime = some ce →
      (data path).loadResult = some mod →
      mod.register_plugin = some (Except.error e) →
      processOne true data st path = Except.error e) := by
  constructor
  · obtain ⟨st2, h⟩ := processFiles_no_cache_ok data
      (find_plugin_files CANVAS_DIR rootReadable entries rec)
      { cache := [], plugins := [], events := [] }
    refine ⟨{ plugins := st2.plugins, savedCache := none, events := st2.events }, ?_⟩
    simp only [get_canvas_plugins, Bool.false_eq_true, if_false]
    rw [h]
  · intro hc hm hr
    simp only [processOne]
    rw [hc, hm]
    simp [hr]

/-- C1, witness: the theorem applied to a concrete empty no-cache cycle and
to a concrete cache-hit unit whose registration raises. -/
theorem C1_witness :
    (∃ r, get_canvas_plugins true [] emptyFileData false false
      CacheFileState.missing true = Except.ok r) ∧
    processOne true dataRegRaise
      { cache := [("canvas/a.py", ceA)], plugins := [], events := [] }
      "canvas/a.py" = Except.error "boom" :=
  ⟨(C1_containment_only_on_fresh_path true [] emptyFileData false true
      CacheFileState.missing { cache := [], plugins := [], events := [] }
      "" ceA modRegRaise "boom").1,
   (C1_containment_only_on_fresh_path true [] dataRegRaise false true
      CacheFileState.missing
      { cache := [("canvas/a.py", ceA)], plugins := [], events := [] }
      "canvas/a.py" ceA modRegRaise "boom").2 rfl rfl rfl⟩

/-- C3: for a unit taken through the cached path (caching enabled, entry
present, recorded mtime equal to the on-disk mtime) whose fresh Phase-1
call and UI resolution succeed, the registry entry is keyed by the cached
title and carries title, description and version from the cache entry,
while register_plugin is still invoked this cycle (the event trace records
the call) and the ui artifact of the entry is the value resolved from the
object this fresh call returned, not anything cached. -/
theorem C3_cache_hit_metadata_cached_registration_fresh
    (fname : String) (data : String → FileData) (rec cw : Bool)
    (cf : CacheFileState) (ce : CacheEntry) (mod : PyModule) (po : PluginObj)
    (u : UIVal)
    (hfile : is_plugin_file fname = true)
    (hce : dictGet (load_cache cf) (pathJoin CANVAS_DIR fname) = some ce)
    (hmt : ce.mtime = some ((data (pathJoin CANVAS_DIR fname)).mtime))
    (hmod : (data (pathJoin CANVAS_DIR fname)).loadResult = some mod)
    (hreg : mod.register_plugin = some (Except.ok po))
    (hget : po.hasGet = true)
    (hres : resolve_plugin_ui (po.ui.getD UIVal.pyNone) = Except.ok u) :
    ∃ r, get_canvas_plugins true [Entry.file fname] data rec true cf cw
        = Except.ok r ∧
      r.plugins = [(ce.title,
        { title := ce.title, description := ce.description, ui := u,
          version := ce.version, path := pathJoin CANVAS_DIR fname,
          plugin_obj := po, mtime := ce.mtime })] ∧
      r.events = [Event.registerPluginCalled (pathJoin CANVAS_DIR fname)] := by
  unfold get_canvas_plugins
  rw [find_plugin_files_single_file fname rec hfile]
  simp only [processFiles, processOne, cache_hit, if_true]
  rw [hce, hmod]
  simp [hreg, hget, hres, dictSet, hmt]

/-- C3, witness: the theorem applied to a concrete cache-hit unit; the
registry entry carries the cached title, description and version while its
ui artifact is the container the fresh registration returned. -/
theorem C3_witness :
    ∃ r, get_canvas_plugins true [Entry.file "a.py"] dataFresh false true
        (CacheFileState.valid [("canvas/a.py", ceCached)]) true
        = Except.ok r ∧
      r.plugins = [("A",
        { title := "A", description := "cached desc", ui := UIVal.container 7,
          version := some "0.9", path := pathJoin CANVAS_DIR "a.py",
          plugin_obj := poFresh, mtime := some 5 })] ∧
      r.events = [Event.registerPluginCalled (pathJoin CANVAS_DIR "a.py")] :=
  C3_cache_hit_metadata_cached_registration_fresh "a.py" dataFresh false true
    (CacheFileState.valid [("canvas/a.py", ceCached)]) ceCached modFresh poFresh
    (UIVal.container 7) (by decide) rfl rfl rfl rfl rfl rfl

/-- C4, counterexample. The claim says a unit lacking register_plugin is
rejected and merely left out of the registry, regardless of cache validity.
For a unit with a valid mtime-matching cache entry the cached branch
accesses mod.register_plugin directly (line 186) with no hasattr guard and
no try, so the cycle aborts with an AttributeError instead of rejecting the
unit: there is no resulting registry at all. -/
theorem C4_counterexample_cached_no_register_aborts :
    get_canvas_plugins true [Entry.file "a.py"] dataNoRegister false true
      (CacheFileState.valid [("canvas/a.py", ceA)]) true
      = Except.error "AttributeError: module has no attribute register_plugin" := rfl

/-- C4, amended: on the fresh path (cache miss or caching disabled) a unit
that does not expose register_plugin is rejected and the registry is left
exactly as it was, containing no entry for that unit; but a unit with a
valid mtime-matching cache entry and no register_plugin capability raises
an AttributeError that aborts the whole load cycle rather than being
rejected. -/
theorem C4_no_register_rejected_on_fresh_path
    (use_cache : Bool) (data : String → FileData) (st : LoopState) (path : String)
    (mod : PyModule) (fname : String) (rec cw : Bool) (cf : CacheFileState) :
    (cache_hit use_cache st.cache path (data path).mtime = none →
      (data path).loadResult = some mod → mod.register_plugin = none →
      processOne use_cache data st path = Except.ok st) ∧
    (cache_hit true (load_cache cf) (pathJoin CANVAS_DIR fname)
        (data (pathJoin CANVAS_DIR fname)).mtime = none →
      (data (pathJoin CANVAS_DIR fname)).loadResult = some mod →
      mod.register_plugin = none →
      is_plugin_file fname = true →
      ∃ r, get_canvas_plugins true [Entry.file fname] data rec true cf cw
          = Except.ok r ∧ r.plugins = []) := by
  constructor
  · intro hmiss hmod hreg
    simp only [processOne]
    rw [hmiss, hmod]
    simp [initialize_plugin, hreg]
  · intro hmiss hmod hreg hfile
    unfold get_canvas_plugins
    rw [find_plugin_files_single_file fname rec hfile]
    simp only [processFiles, processOne, if_true, eq_self_iff_true]
    rw [hmiss, hmod]
    simp [initialize_plugin, hreg]

/-- C4, witness: the theorem applied to a concrete unit lacking
register_plugin, taken through the fresh path of a concrete cycle with an
empty cache; the cycle succeeds and the registry is empty. -/
theorem C4_witness :
    processOne true dataNoRegister
      { cache := [], plugins := [], events := [] } "canvas/a.py"
      = Except.ok { cache := [], plugins := [], events := [] } ∧
    ∃ r, get_canvas_plugins true [Entry.file "a.py"] dataNoRegister false true
        CacheFileState.missing true = Except.ok r ∧ r.plugins = [] :=
  ⟨(C4_no_register_rejected_on_fresh_path true dataNoRegister
      { cache := [], plugins := [], events := [] } "canvas/a.py"
      modNoRegister "a.py" false true CacheFileState.missing).1 rfl rfl rfl,
   (C4_no_register_rejected_on_fresh_path true dataNoRegister
      { cache := [], plugins := [], events := [] } "canvas/a.py"
      modNoRegister "a.py" false true CacheFileState.missing).2
      rfl rfl rfl (by decide)⟩

/-- C10: a unit taken through the cached path has its optional
register_hooks capability left uninvoked that cycle (the event trace holds
only the register_plugin call, although the module does expose
register_hooks), and the value returned by the fresh Phase-1 call is not
validated as a dict with a ui key: even a non-dict object (as long as it
exposes the get method the branch calls) still yields a registry entry. -/
theorem C10_cache_hit_no_hooks_no_validation
    (fname : String) (data : String → FileData) (rec cw : Bool)
    (cf : CacheFileState) (ce : CacheEntry) (mod : PyModule) (po : PluginObj)
    (u : UIVal) (hk : Except PyErr Unit)
    (hfile : is_plugin_file fname = true)
    (hce : dictGet (load_cache cf) (pathJoin CANVAS_DIR fname) = some ce)
    (hmt : ce.mtime = some ((data (pathJoin CANVAS_DIR fname)).mtime))
    (hmod : (data (pathJoin CANVAS_DIR fname)).loadResult = some mod)
    (hreg : mod.register_plugin = some (Except.ok po))
    (hhook : mod.register_hooks = some hk)
    (hdict : po.isDict = false)
    (hget : po.hasGet = true)
    (hres : resolve_plugin_ui (po.ui.getD UIVal.pyNone) = Except.ok u) :
    ∃ r, get_canvas_plugins true [Entry.file fname] data rec true cf cw
        = Except.ok r ∧
      dictGet r.plugins ce.title = some
        { title := ce.title, description := ce.description, ui := u,
          version := ce.version, path := pathJoin CANVAS_DIR fname,
          plugin_obj := po, mtime := ce.mtime } ∧
      r.events = [Event.registerPluginCalled (pathJoin CANVAS_DIR fname)] := by
  unfold get_canvas_plugins
  rw [find_plugin_files_single_file fname rec hfile]
  simp only [processFiles, processOne, cache_hit, if_true]
  rw [hce, hmod]
  simp [hreg, hget, hres, dictSet, dictGet, hmt]

/-- C10, witness: the theorem applied to a concrete cache-hit unit whose
register_hooks would raise if it were invoked and whose registered object
is not a dict; the cycle still succeeds, the entry is present, and the
trace shows no hook call. -/
theorem C10_witness :
    ∃ r, get_canvas_plugins true [Entry.file "a.py"] dataHooky false true
        (CacheFileState.valid [("canvas/a.py", ceA)]) true
        = Except.ok r ∧
      dictGet r.plugins "A" = some
        { title := "A", description := "", ui := UIVal.pyNone,
          version := none, path := pathJoin CANVAS_DIR "a.py",
          plugin_obj := poNonDict, mtime := some 5 } ∧
      r.events = [Event.registerPluginCalled (pathJoin CANVAS_DIR "a.py")] :=
  C10_cache_hit_no_hooks_no_validation "a.py" dataHooky false true
    (CacheFileState.valid [("canvas/a.py", ceA)]) ceA modHooky poNonDict
    UIVal.pyNone (Except.error "hookboom")
    (by decide) rfl rfl rfl rfl rfl rfl rfl rfl

/-- Helper: unfolding equations of dictSet on a cons cell. -/
lemma dictSet_cons_eq {α : Type} (k1 : String) (v1 : α) (rest : List (String × α))
    (k : String) (v : α) (h : k1 = k) :
    dictSet ((k1, v1) :: rest) k v = (k, v) :: rest := by
  simp [dictSet, h]

/-- Helper: unfolding equations of dictSet on a cons cell, distinct key. -/
lemma dictSet_cons_ne {α : Type} (k1 : String) (v1 : α) (rest : List (String × α))
    (k : String) (v : α) (h : ¬ k1 = k) :
    dictSet ((k1, v1) :: rest) k v = (k1, v1) :: dictSet rest k v := by
  simp [dictSet, h]

/-- Helper: assignment stores the value under the key. -/
lemma dictGet_dictSet_self {α : Type} (m : List (String × α)) (k : String) (v : α) :
    dictGet (dictSet m k v) k = some v := by
  induction m with
  | nil => simp [dictSet, dictGet]
  | cons p rest ih =>
      obtain ⟨k1, v1⟩ := p
      by_cases h : k1 = k
      · rw [dictSet_cons_eq k1 v1 rest k v h]
        simp [dictGet]
      · rw [dictSet_cons_ne k1 v1 rest k v h]
        simp [dictGet, h, ih]

/-- Helper: a key absent from an association list is counted zero times. -/
lemma countKey_eq_zero_of_not_mem {α : Type} (m : List (String × α)) (k : String)
    (h : k ∉ m.map Prod.fst) : countKey m k = 0 := by
  unfold countKey
  rw [List.countP_eq_zero]
  intro p hp
  simp only [decide_eq_true_eq]
  intro hk
  exact h (hk ▸ List.mem_map_of_mem Prod.fst hp)

/-- Helper: every key of the updated list is an old key or the new key. -/
lemma mem_keys_dictSet {α : Type} (m : List (String × α)) (k : String) (v : α)
    (a : String) (h : a ∈ (dictSet m k v).map Prod.fst) :
    a ∈ m.map Prod.fst ∨ a = k := by
  induction m with
  | nil =>
      simp only [dictSet, List.map_cons, List.map_nil, List.mem_singleton] at h
      exact Or.inr h
  | cons p rest ih =>
      obtain ⟨k1, v1⟩ := p
      by_cases hk : k1 = k
      · rw [dictSet_cons_eq k1 v1 rest k v hk] at h
        simp only [List.map_cons, List.mem_cons] at h
        rcases h with h | h
        · exact Or.inr h
        · refine Or.inl ?_
          simp only [List.map_cons, List.mem_cons]
          exact Or.inr h
      · rw [dictSet_cons_ne k1 v1 rest k v hk] at h
        simp only [List.map_cons, List.mem_cons] at h
        rcases h with h | h
        · refine Or.inl ?_
          simp only [List.map_cons, List.mem_cons]
          exact Or.inl h
        · rcases ih h with h2 | h2
          · refine Or.inl ?_
            simp only [List.map_cons, List.mem_cons]
            exact Or.inr h2
          · exact Or.inr h2

/-- Helper: assignment preserves key uniqueness. -/
lemma keysNodup_dictSet {α : Type} (m : List (String × α)) (k : String) (v : α)
    (h : (m.map Prod.fst).Nodup) : ((dictSet m k v).map Prod.fst).Nodup := by
  induction m with
  | nil => simp [dictSet]
  | cons p rest ih =>
      obtain ⟨k1, v1⟩ := p
      simp only [List.map_cons, List.nodup_cons] at h
      by_cases hk : k1 = k
      · rw [dictSet_cons_eq k1 v1 rest k v hk]
        simp only [List.map_cons, List.nodup_cons]
        exact ⟨hk ▸ h.1, h.2⟩
      · rw [dictSet_cons_ne k1 v1 rest k v hk]
        simp only [List.map_cons, List.nodup_cons]
        refine ⟨?_, ih h.2⟩
        intro hmem
        rcases mem_keys_dictSet rest k v k1 hmem with h2 | h2
        · exact h.1 h2
        · exact hk h2

/-- Helper: after an assignment into a key-unique association list the key
is carried by exactly one entry. -/
lemma countKey_dictSet_self {α : Type} (m : List (String × α)) (k : String) (v : α)
    (h : (m.map Prod.fst).Nodup) : countKey (dictSet m k v) k = 1 := by
  induction m with
  | nil => simp [dictSet, countKey]
  | cons p rest ih =>
      obtain ⟨k1, v1⟩ := p
      simp only [List.map_cons, List.nodup_cons] at h
      by_cases hk : k1 = k
      · rw [dictSet_cons_eq k1 v1 rest k v hk]
        have h0 : countKey rest k = 0 :=
          countKey_eq_zero_of_not_mem rest k (hk ▸ h.1)
        unfold countKey at h0 ⊢
        rw [List.countP_cons_of_pos]
        · rw [h0]
        · simp
      · rw [dictSet_cons_ne k1 v1 rest k v hk]
        have h1 := ih h.2
        unfold countKey at h1 ⊢
        rw [List.countP_cons_of_neg]
        · exact h1
        · simp [hk]

/-- Helper: one loop iteration preserves key uniqueness of the registry. -/
lemma processOne_preserves_keysNodup (uc : Bool) (data : String → FileData)
    (st st2 : LoopState) (path : String)
    (h : processOne uc data st path = Except.ok st2)
    (hn : (st.plugins.map Prod.fst).Nodup) :
    (st2.plugins.map Prod.fst).Nodup := by
  simp only [processOne] at h
  split at h
  · split at h
    · cases h; exact hn
    · split at h
      · exact absurd h (by simp)
      · exact absurd h (by simp)
      · split at h
        · split at h
          · exact absurd h (by simp)
          · cases h; exact keysNodup_dictSet _ _ _ hn
        · exact absurd h (by simp)
  · split at h
    · cases h; exact hn
    · split at h
      · cases h; exact hn
      · cases h; exact keysNodup_dictSet _ _ _ hn

/-- Helper: the loop preserves key uniqueness of the registry. -/
lemma processFiles_preserves_keysNodup (uc : Bool) (data : String → FileData)
    (files : List String) (st st2 : LoopState)
    (h : processFiles uc data files st = Except.ok st2)
    (hn : (st.plugins.map Prod.fst).Nodup) :
    (st2.plugins.map Prod.fst).Nodup := by
  induction files generalizing st with
  | nil =>
      simp only [processFiles] at h
      cases h
      exact hn
  | cons p rest ih =>
      simp only [processFiles] at h
      split at h
      · exact absurd h (by simp)
      · rename_i st1 heq
        exact ih st1 h (processOne_preserves_keysNodup uc data st st1 p heq hn)

/-- Helper: the loop over an appended candidate list runs the first part
and, unless it raised, continues with the second part from the state the
first part reached. -/
lemma processFiles_append (uc : Bool) (data : String → FileData)
    (l1 l2 : List String) (st : LoopState) :
    processFiles uc data (l1 ++ l2) st =
      match processFiles uc data l1 st with
      | Except.error e => Except.error e
      | Except.ok st1 => processFiles uc data l2 st1 := by
  induction l1 generalizing st with
  | nil => simp [processFiles]
  | cons p rest ih =>
      simp only [List.cons_append, processFiles]
      cases processOne uc data st p <;> simp [ih]

/-- C8: when the unit processed last in scan order initializes successfully
on the fresh path with a title an earlier registry entry already carries,
the final registry holds exactly one entry for that title, and it is the
descriptor of that last unit: the assignment of line 206 lets the last
write win. -/
theorem C8_duplicate_title_last_wins
    (uc : Bool) (data : String → FileData) (files : List String) (p : String)
    (c0 : List (String × CacheEntry)) (st1 : LoopState) (mod : PyModule)
    (d d1 : Descriptor) (evs2 : List Event)
    (h0 : processFiles uc data files { cache := c0, plugins := [], events := [] }
      = Except.ok st1)
    (hmiss : cache_hit uc st1.cache p (data p).mtime = none)
    (hmod : (data p).loadResult = some mod)
    (hinit : initialize_plugin mod p (plugin_title (data p).lines p) (data p).lines
      = (some d, evs2))
    (hdup : dictGet st1.plugins d.title = some d1) :
    ∃ st2, processFiles uc data (files ++ [p])
        { cache := c0, plugins := [], events := [] } = Except.ok st2 ∧
      dictGet st2.plugins d.title = some d ∧
      countKey st2.plugins d.title = 1 := by
  have hstep : processOne uc data st1 p = Except.ok
      { cache := dictSet st1.cache p
          { title := d.title, description := d.description,
            mtime := some (data p).mtime, version := d.version },
        plugins := dictSet st1.plugins d.title d,
        events := st1.events ++ evs2 } := by
    simp only [processOne]
    rw [hmiss, hmod]
    simp [hinit]
  have hn : (st1.plugins.map Prod.fst).Nodup :=
    processFiles_preserves_keysNodup uc data files _ st1 h0 (by simp)
  refine ⟨(⟨dictSet st1.cache p ⟨d.title, d.description, some (data p).mtime, d.version⟩,
      dictSet st1.plugins d.title d, st1.events ++ evs2⟩ : LoopState), ?_, ?_, ?_⟩
  · rw [processFiles_append, h0]
    simp only [processFiles]
    rw [hstep]
  · exact dictGet_dictSet_self _ _ _
  · exact countKey_dictSet_self _ _ _ hn

/-- C8, witness: the theorem applied to a concrete cycle over two units
that both declare title T; the registry keeps exactly the descriptor of
the second one. -/
theorem C8_witness :
    ∃ st2, processFiles false dataDup ["canvas/a.py", "canvas/b.py"]
        { cache := [], plugins := [], events := [] } = Except.ok st2 ∧
      dictGet st2.plugins "T" = some descDupB ∧
      countKey st2.plugins "T" = 1 :=
  C8_duplicate_title_last_wins false dataDup ["canvas/a.py"] "canvas/b.py" []
    stAfterA modDupB descDupB descDupA
    [Event.registerPluginCalled "canvas/b.py"] rfl rfl rfl rfl rfl
